import Mathlib

/-!
Verification of the streamlit ScriptRunner (lib/streamlit/ScriptRunner.py).

The development shallowly embeds the runner: the mutable object state
(execution state, the two threading.Event flags, the report argv and
script path, and the log of on_state_changed emissions) becomes an
explicit record, and each method becomes a state-passing function.
Blocking (the pause-wait loop) is modelled by threading an explicit
list of environment actions, one applied per poll of the loop; raising
an exception is modelled by an explicit result constructor.
-/

namespace Streamlit

/-- Execution states of the runner, mirroring the class State of the source. -/
inductive State where
  | INITIAL
  | RUNNING
  | STOP_REQUESTED
  | RERUN_REQUESTED
  | PAUSE_REQUESTED
  | PAUSED
  | STOPPED
deriving DecidableEq, Repr

/-- The mutable state of one ScriptRunner object: the current execution
state, the two threading.Event flags (paused and state-change-requested),
the report fields it reads and writes (script_path, argv), and the ordered
log of values emitted on the on_state_changed signal. -/
structure ScriptRunner where
  state : State
  paused : Bool
  state_change_requested : Bool
  script_path : String
  argv : List String
  notifications : List State
deriving DecidableEq, Repr

/-- Embeds ScriptRunner._set_state: if the state is unchanged, return at
once; otherwise store the new state and send it on on_state_changed. -/
def set_state (s : ScriptRunner) (new_state : State) : ScriptRunner :=
  if s.state = new_state then s
  else { s with state := new_state, notifications := s.notifications ++ [new_state] }

/-- Embeds ScriptRunner.is_running. -/
def is_running (s : ScriptRunner) : Bool :=
  s.state == State.RUNNING

/-- Embeds ScriptRunner.is_fully_stopped: state in (INITIAL, STOPPED). -/
def is_fully_stopped (s : ScriptRunner) : Bool :=
  s.state == State.INITIAL || s.state == State.STOPPED

/-- Embeds ScriptRunner.request_rerun: stores argv on the report, then
either spawns the script thread (second component true) when fully
stopped, or records a rerun request. -/
def request_rerun (s : ScriptRunner) (argv : List String) : ScriptRunner × Bool :=
  let s1 : ScriptRunner := { s with argv := argv }
  if is_fully_stopped s1 then
    (s1, true)
  else
    let s2 := set_state s1 State.RERUN_REQUESTED
    let s3 : ScriptRunner := { s2 with paused := false }
    let s4 : ScriptRunner := { s3 with state_change_requested := true }
    (s4, false)

/-- Embeds ScriptRunner.request_stop. -/
def request_stop (s : ScriptRunner) : ScriptRunner :=
  if is_fully_stopped s then s
  else
    let s2 := set_state s State.STOP_REQUESTED
    let s3 : ScriptRunner := { s2 with paused := false }
    { s3 with state_change_requested := true }

/-- Embeds the internal ScriptRunner._request_pause. -/
def request_pause (s : ScriptRunner) : ScriptRunner :=
  if is_fully_stopped s then s
  else
    let s2 := set_state s State.PAUSE_REQUESTED
    { s2 with state_change_requested := true }

/-- Embeds ScriptRunner.request_pause_unpause. -/
def request_pause_unpause (s : ScriptRunner) : ScriptRunner :=
  if s.state = State.PAUSED then
    let s2 := set_state s State.RUNNING
    { s2 with paused := false }
  else
    request_pause s

/-- Embeds the first two statements of ScriptRunner._pause: set the
paused event, then transition to PAUSED. -/
def pause_enter (s : ScriptRunner) : ScriptRunner :=
  set_state { s with paused := true } State.PAUSED

/-- Embeds the while loop of ScriptRunner._pause. The loop polls the
paused event; each sleep is modelled by applying one environment action
(state changes performed by the controller thread between polls). The
Bool result is true when the loop exited because the paused event was
cleared, false when the supplied environment ran out while the worker
was still blocked (the real loop would keep polling forever). -/
def pause_wait_loop : List (ScriptRunner → ScriptRunner) → ScriptRunner → ScriptRunner × Bool
  | [], s => if s.paused = false then (s, true) else (s, false)
  | a :: rest, s => if s.paused = false then (s, true) else pause_wait_loop rest (a s)

/-- Embeds ScriptRunner._pause: enter the paused state, then block in
the poll loop until the paused event is cleared. -/
def _pause (env : List (ScriptRunner → ScriptRunner)) (s : ScriptRunner) : ScriptRunner × Bool :=
  pause_wait_loop env (pause_enter s)

/-- Result of one call to the checkpoint: a normal return, a raised
StopException or RerunException carrying the state at the raise, or a
block in the pause loop that the environment never released. -/
inductive ControlResult where
  | returned (s : ScriptRunner)
  | raised_stop (s : ScriptRunner)
  | raised_rerun (s : ScriptRunner)
  | blocked (s : ScriptRunner)
deriving DecidableEq, Repr

/-- Embeds ScriptRunner.maybe_handle_execution_control_request. Note
that the source checks the state-change event but never clears it here. -/
def maybe_handle_execution_control_request
    (env : List (ScriptRunner → ScriptRunner)) (s : ScriptRunner) : ControlResult :=
  if s.state_change_requested then
    if s.state = State.STOP_REQUESTED then
      ControlResult.raised_stop s
    else if s.state = State.RERUN_REQUESTED then
      ControlResult.raised_rerun s
    else if s.state = State.PAUSE_REQUESTED then
      match _pause env s with
      | (s2, true) => ControlResult.returned s2
      | (s2, false) => ControlResult.blocked s2
    else
      ControlResult.returned s
  else
    ControlResult.returned s

/-- Outcome of the try block of one pass of ScriptRunner._run: the
compile call failed (a SyntaxError, caught by the generic except arm),
or exec finished normally, or exec raised StopException, RerunException,
or any other BaseException with a rendered message. -/
inductive ExecOutcome where
  | completed
  | stop_exc
  | rerun_exc
  | script_error (msg : String)
  | compile_error (msg : String)

/-- One pass of the script thread, abstracting the parts the runner does
not control: eff is the aggregate effect on the runner state of the
controller requests (and checkpoint handling) that land during the try
block, ns_eff is the mutation the executed script performs on the
namespace dict passed to exec, and outcome is how the try block ends. -/
structure ScriptPass where
  eff : ScriptRunner → ScriptRunner
  ns_eff : List (String × String) → List (String × String)
  outcome : ExecOutcome

/-- Observable record of a worker run: the runner state, the values
rendered to the report by st.exception (the output sink), and, for each
pass that reached exec, the namespace dict it was handed. -/
structure WorkerLog where
  runner : ScriptRunner
  sink : List String
  ns_log : List (List (String × String))
deriving DecidableEq, Repr

/-- Embeds the startup prefix of ScriptRunner._run after the
fully-stopped assertion: clear the state-change event, then transition
to RUNNING. -/
def worker_startup (s : ScriptRunner) : ScriptRunner :=
  set_state { s with state_change_requested := false } State.RUNNING

/-- Embeds the namespace dict built in ScriptRunner._run: a brand new
dict holding only the common module variables. -/
def fresh_namespace (script_path : String) : List (String × String) :=
  [("__name__", "__main__"), ("__file__", script_path)]

/-- Result of calling ScriptRunner._run: the RuntimeError raised by the
already-running assertion escapes the thread (nothing else happens), or
the run finishes with a final log. -/
inductive RunResult where
  | already_running (log : WorkerLog)
  | finished (log : WorkerLog)
deriving DecidableEq, Repr

/-- Embeds ScriptRunner._run. Each recursive pass consumes one
ScriptPass describing the environment of that pass; an empty list means
the environment supplies no outcome for a pass that starts (the model
leaves the result undetermined, none). Per the source: assert the
runner is fully stopped (else raise RuntimeError), clear the
state-change event, set state RUNNING, run the try block (compile, build
a fresh namespace, exec), dispatch on the exception: RerunException sets
the rerun flag, StopException is swallowed, any other BaseException is
rendered to the sink via st.exception; the finally arm sets state
STOPPED; a set rerun flag tail-calls _run again. The namespace mutated
by the script is discarded: only the fresh dict handed to exec is
logged. -/
def run_passes : List ScriptPass → WorkerLog → Option RunResult
  | [], _ => none
  | p :: rest, log =>
    if is_fully_stopped log.runner = false then
      some (RunResult.already_running log)
    else
      let s1 := worker_startup log.runner
      let s2 := p.eff s1
      match p.outcome with
      | ExecOutcome.compile_error msg =>
        some (RunResult.finished
          { runner := set_state s2 State.STOPPED,
            sink := log.sink ++ [msg],
            ns_log := log.ns_log })
      | ExecOutcome.completed =>
        let ns0 := fresh_namespace s1.script_path
        let _nsf := p.ns_eff ns0
        some (RunResult.finished
          { runner := set_state s2 State.STOPPED,
            sink := log.sink,
            ns_log := log.ns_log ++ [ns0] })
      | ExecOutcome.stop_exc =>
        let ns0 := fresh_namespace s1.script_path
        let _nsf := p.ns_eff ns0
        some (RunResult.finished
          { runner := set_state s2 State.STOPPED,
            sink := log.sink,
            ns_log := log.ns_log ++ [ns0] })
      | ExecOutcome.rerun_exc =>
        let ns0 := fresh_namespace s1.script_path
        let _nsf := p.ns_eff ns0
        run_passes rest
          { runner := set_state s2 State.STOPPED,
            sink := log.sink,
            ns_log := log.ns_log ++ [ns0] }
      | ExecOutcome.script_error msg =>
        let ns0 := fresh_namespace s1.script_path
        let _nsf := p.ns_eff ns0
        some (RunResult.finished
          { runner := set_state s2 State.STOPPED,
            sink := log.sink ++ [msg],
            ns_log := log.ns_log ++ [ns0] })

section PyAst

/-- Shape of a top-level node of the parsed script, with just the
distinctions _insert_import_statement inspects: ast.Import (with the
alias it carries), ast.ImportFrom, an ast.Expr wrapping an ast.Str (a
docstring position), and every other statement kind. -/
inductive PyNode where
  | import_node (name : String) (asname : Option String)
  | import_from_node (module : String)
  | expr_str_node (s : String)
  | other_node (tag : String)
deriving DecidableEq, Repr

/-- Embeds _build_st_import_statement: import streamlit as __streamlit__. -/
def _build_st_import_statement : PyNode :=
  PyNode.import_node "streamlit" (some "__streamlit__")

/-- Tests type(node) in (ast.ImportFrom, ast.Import). -/
def is_import_type : PyNode → Bool
  | PyNode.import_node _ _ => true
  | PyNode.import_from_node _ => true
  | _ => false

/-- Tests type(node) is ast.Expr and type(node.value) is ast.Str. -/
def is_str_expr : PyNode → Bool
  | PyNode.expr_str_node _ => true
  | _ => false

/-- Embeds _insert_import_statement on the body list of the tree: if the
0th node is an import statement, insert at index 1; else if the 0th node
is a docstring and the 1st an import statement, insert at index 2; else
insert at index 0. -/
def _insert_import_statement (body : List PyNode) : List PyNode :=
  match body with
  | [] => [_build_st_import_statement]
  | b0 :: rest =>
    if is_import_type b0 then
      b0 :: _build_st_import_statement :: rest
    else
      match rest with
      | [] => _build_st_import_statement :: [b0]
      | b1 :: rest2 =>
        if is_str_expr b0 && is_import_type b1 then
          b0 :: b1 :: _build_st_import_statement :: rest2
        else
          _build_st_import_statement :: b0 :: b1 :: rest2

/-- Insertion at an index, the semantics of list.insert of Python for
indices within the list. -/
def insert_at (k : Nat) (x : PyNode) (l : List PyNode) : List PyNode :=
  l.take k ++ x :: l.drop k

/-- Position at which _insert_import_statement places the streamlit
binding: 1 after a leading import statement, 2 after a docstring
followed by an import statement, 0 otherwise. -/
def st_import_index (body : List PyNode) : Nat :=
  match body with
  | [] => 0
  | b0 :: rest =>
    if is_import_type b0 then 1
    else
      match rest with
      | [] => 0
      | b1 :: _ => if is_str_expr b0 && is_import_type b1 then 2 else 0

end PyAst

/-- Concrete runner in the RUNNING state, flags clear. -/
def sample_running : ScriptRunner :=
  { state := State.RUNNING, paused := false, state_change_requested := false,
    script_path := "script.py", argv := ["script.py"], notifications := [] }

/-- Concrete runner in the RUNNING state with the state-change event
still set, as left behind by a pause and resume cycle. -/
def sample_after_resume : ScriptRunner :=
  { state := State.RUNNING, paused := false, state_change_requested := true,
    script_path := "script.py", argv := ["script.py"], notifications := [] }

/-- Concrete runner with a pending pause request. -/
def sample_pause_requested : ScriptRunner :=
  { state := State.PAUSE_REQUESTED, paused := false, state_change_requested := true,
    script_path := "script.py", argv := ["script.py"], notifications := [] }

/-- Concrete runner with a pending stop request. -/
def sample_stop_requested : ScriptRunner :=
  { state := State.STOP_REQUESTED, paused := false, state_change_requested := true,
    script_path := "script.py", argv := ["script.py"], notifications := [] }

/-- Concrete runner in the STOPPED state, flags clear. -/
def sample_stopped : ScriptRunner :=
  { state := State.STOPPED, paused := false, state_change_requested := false,
    script_path := "script.py", argv := ["script.py"], notifications := [] }

/-- Concrete script pass whose try block raises StopException and whose
environment touches nothing. -/
def sample_stop_pass : ScriptPass :=
  { eff := id, ns_eff := id, outcome := ExecOutcome.stop_exc }

/-- Concrete script pass whose try block completes normally. -/
def sample_completed_pass : ScriptPass :=
  { eff := id, ns_eff := id, outcome := ExecOutcome.completed }

/-- Concrete worker log for a fully stopped runner. -/
def sample_log0 : WorkerLog :=
  { runner := sample_stopped, sink := [], ns_log := [] }

/-- Concrete runner blocked in the pause loop. -/
def sample_paused : ScriptRunner :=
  { state := State.PAUSED, paused := true, state_change_requested := true,
    script_path := "script.py", argv := ["script.py"], notifications := [] }

/-- Concrete worker log for a runner that is already RUNNING. -/
def sample_log_running : WorkerLog :=
  { runner := sample_running, sink := [], ns_log := [] }

/-- Concrete worker log produced by one completed pass started from
sample_log0: the startup transition to RUNNING and the final transition
to STOPPED were notified, and the one exec namespace was logged. -/
def sample_finished_log : WorkerLog :=
  { runner :=
      { state := State.STOPPED, paused := false, state_change_requested := false,
        script_path := "script.py", argv := ["script.py"],
        notifications := [State.RUNNING, State.STOPPED] },
    sink := [],
    ns_log := [[("__name__", "__main__"), ("__file__", "script.py")]] }

section BasicLemmas

theorem set_state_state (s : ScriptRunner) (v : State) : (set_state s v).state = v := by
  unfold set_state
  split
  · next h => exact h
  · rfl

theorem set_state_paused (s : ScriptRunner) (v : State) : (set_state s v).paused = s.paused := by
  unfold set_state
  split <;> rfl

theorem set_state_flag (s : ScriptRunner) (v : State) :
    (set_state s v).state_change_requested = s.state_change_requested := by
  unfold set_state
  split <;> rfl

theorem set_state_argv (s : ScriptRunner) (v : State) : (set_state s v).argv = s.argv := by
  unfold set_state
  split <;> rfl

theorem set_state_path (s : ScriptRunner) (v : State) :
    (set_state s v).script_path = s.script_path := by
  unfold set_state
  split <;> rfl

theorem set_state_self (s : ScriptRunner) (v : State) (h : s.state = v) : set_state s v = s := by
  unfold set_state
  simp [h]

theorem set_state_notifications (s : ScriptRunner) (v : State) :
    (set_state s v).notifications =
      if s.state = v then s.notifications else s.notifications ++ [v] := by
  unfold set_state
  split <;> simp_all

theorem is_fully_stopped_iff (s : ScriptRunner) :
    is_fully_stopped s = true ↔ (s.state = State.INITIAL ∨ s.state = State.STOPPED) := by
  unfold is_fully_stopped
  cases s.state <;> simp

theorem worker_startup_path (s : ScriptRunner) :
    (worker_startup s).script_path = s.script_path := by
  unfold worker_startup
  rw [set_state_path]

theorem pause_wait_loop_unblocked (env : List (ScriptRunner → ScriptRunner)) :
    ∀ s s2, pause_wait_loop env s = (s2, true) → s2.paused = false := by
  induction env with
  | nil =>
    intro s s2 h
    simp only [pause_wait_loop] at h
    split at h
    · next hp => cases h; exact hp
    · simp at h
  | cons a rest ih =>
    intro s s2 h
    simp only [pause_wait_loop] at h
    split at h
    · next hp => cases h; exact hp
    · exact ih (a s) s2 h

theorem pause_enter_paused (s : ScriptRunner) : (pause_enter s).paused = true := by
  unfold pause_enter
  rw [set_state_paused]

theorem pause_enter_state (s : ScriptRunner) : (pause_enter s).state = State.PAUSED :=
  set_state_state _ _

theorem pause_enter_flag (s : ScriptRunner) :
    (pause_enter s).state_change_requested = s.state_change_requested := by
  unfold pause_enter
  rw [set_state_flag]

theorem maybe_handle_pause_loop (env : List (ScriptRunner → ScriptRunner)) (s : ScriptRunner)
    (hreq : s.state_change_requested = true) (hst : s.state = State.PAUSE_REQUESTED) :
    ∀ s2 b, pause_wait_loop env (pause_enter s) = (s2, b) →
      maybe_handle_execution_control_request env s =
        (if b then ControlResult.returned s2 else ControlResult.blocked s2) := by
  intro s2 b hl
  simp only [maybe_handle_execution_control_request]
  rw [if_pos hreq, if_neg (by simp [hst]), if_neg (by simp [hst]), if_pos hst]
  unfold _pause
  rw [hl]
  cases b <;> rfl

theorem runner_clear_set_eta (r : ScriptRunner) (hp : r.paused = false)
    (hf : r.state_change_requested = true) :
    ({ { r with paused := false } with state_change_requested := true } : ScriptRunner) = r := by
  cases r
  simp_all

theorem request_stop_of_active (s : ScriptRunner) (h : is_fully_stopped s = false) :
    request_stop s =
      { { set_state s State.STOP_REQUESTED with paused := false }
          with state_change_requested := true } := by
  simp only [request_stop]
  rw [if_neg (by simp [h])]

theorem request_rerun_of_stopped (s : ScriptRunner) (a : List String)
    (h : is_fully_stopped s = true) :
    request_rerun s a = ({ s with argv := a }, true) := by
  have h2 : is_fully_stopped ({ s with argv := a } : ScriptRunner) = true := h
  simp only [request_rerun]
  rw [if_pos h2]

theorem request_rerun_of_active (s : ScriptRunner) (a : List String)
    (h : is_fully_stopped s = false) :
    request_rerun s a =
      ({ { set_state ({ s with argv := a }) State.RERUN_REQUESTED with paused := false }
          with state_change_requested := true }, false) := by
  have h2 : is_fully_stopped ({ s with argv := a } : ScriptRunner) = false := h
  simp only [request_rerun]
  rw [if_neg (by simp [h2])]

theorem request_pause_of_active (s : ScriptRunner) (h : is_fully_stopped s = false) :
    request_pause s =
      { set_state s State.PAUSE_REQUESTED with state_change_requested := true } := by
  simp only [request_pause]
  rw [if_neg (by simp [h])]

end BasicLemmas

/-- C10: whenever maybe_handle_execution_control_request runs with the
state-change event not set, or set but the state not one of
STOP_REQUESTED, RERUN_REQUESTED, PAUSE_REQUESTED (for example RUNNING
after a pause and resume cycle), it returns normally, raises nothing,
and leaves the state, the paused event and the state-change event all
unchanged. -/
theorem claim_C10_checkpoint_frame (env : List (ScriptRunner → ScriptRunner)) (s : ScriptRunner)
    (h : s.state_change_requested = false ∨
      (s.state ≠ State.STOP_REQUESTED ∧ s.state ≠ State.RERUN_REQUESTED ∧
        s.state ≠ State.PAUSE_REQUESTED)) :
    maybe_handle_execution_control_request env s = ControlResult.returned s := by
  unfold maybe_handle_execution_control_request
  rcases h with h | ⟨h1, h2, h3⟩
  · simp [h]
  · simp [h1, h2, h3]

/-- Witness for C10, at a runner that is RUNNING with the state-change
event still set. -/
theorem claim_C10_checkpoint_frame_witness :
    (sample_after_resume.state_change_requested = false ∨
      (sample_after_resume.state ≠ State.STOP_REQUESTED ∧
        sample_after_resume.state ≠ State.RERUN_REQUESTED ∧
        sample_after_resume.state ≠ State.PAUSE_REQUESTED)) ∧
    maybe_handle_execution_control_request [] sample_after_resume =
      ControlResult.returned sample_after_resume :=
  ⟨Or.inr (by decide),
    claim_C10_checkpoint_frame [] sample_after_resume (Or.inr (by decide))⟩

/-- C5: request_stop is a no-op when the runner is fully stopped (and
stays one under arbitrary repetition), and otherwise moves the state to
STOP_REQUESTED, clears the paused event and sets the state-change
event. -/
theorem claim_C5_request_stop (s : ScriptRunner) :
    (is_fully_stopped s = true → request_stop s = s ∧ ∀ n, request_stop^[n] s = s) ∧
    (is_fully_stopped s = false →
      (request_stop s).state = State.STOP_REQUESTED ∧
      (request_stop s).paused = false ∧
      (request_stop s).state_change_requested = true) := by
  constructor
  · intro h
    have hid : request_stop s = s := by
      unfold request_stop
      simp [h]
    refine ⟨hid, ?_⟩
    intro n
    induction n with
    | zero => rfl
    | succ k ih => rw [Function.iterate_succ_apply, hid, ih]
  · intro h
    unfold request_stop
    simp [h, set_state_state, set_state_paused]

/-- Witness for C5, at a fully stopped runner and at a running one. -/
theorem claim_C5_request_stop_witness :
    (is_fully_stopped sample_stopped = true ∧
      (request_stop sample_stopped = sample_stopped ∧
        ∀ n, request_stop^[n] sample_stopped = sample_stopped)) ∧
    (is_fully_stopped sample_running = false ∧
      ((request_stop sample_running).state = State.STOP_REQUESTED ∧
        (request_stop sample_running).paused = false ∧
        (request_stop sample_running).state_change_requested = true)) :=
  ⟨⟨by decide, (claim_C5_request_stop sample_stopped).1 (by decide)⟩,
    ⟨by decide, (claim_C5_request_stop sample_running).2 (by decide)⟩⟩

/-- C7: _set_state emits on_state_changed exactly once, and only when
the new state differs from the current one; setting the current state
again is a complete no-op; the first request_stop from a state other
than STOP_REQUESTED emits exactly the one STOP_REQUESTED notification,
and a repeated request_stop changes nothing further, in particular it
emits no further notification. -/
theorem claim_C7_notify_once (s : ScriptRunner) (v : State) :
    ((set_state s v).notifications =
      if s.state = v then s.notifications else s.notifications ++ [v]) ∧
    (s.state = v → set_state s v = s) ∧
    (is_fully_stopped s = false → s.state ≠ State.STOP_REQUESTED →
      (request_stop s).notifications = s.notifications ++ [State.STOP_REQUESTED]) ∧
    (is_fully_stopped s = false →
      request_stop (request_stop s) = request_stop s) := by
  refine ⟨set_state_notifications s v, set_state_self s v, ?_, ?_⟩
  · intro h hne
    rw [request_stop_of_active s h]
    simp [set_state_notifications, hne]
  · intro h
    have h1 : (request_stop s).state = State.STOP_REQUESTED := by
      rw [request_stop_of_active s h]
      simp [set_state_state]
    have h2 : is_fully_stopped (request_stop s) = false := by
      unfold is_fully_stopped
      rw [h1]
      rfl
    have h3 : (request_stop s).paused = false := by
      rw [request_stop_of_active s h]
    have h4 : (request_stop s).state_change_requested = true := by
      rw [request_stop_of_active s h]
    rw [request_stop_of_active (request_stop s) h2, set_state_self _ _ h1]
    exact runner_clear_set_eta _ h3 h4

/-- Witness for C7, at a running runner and the RUNNING target state. -/
theorem claim_C7_notify_once_witness :
    ((set_state sample_running State.RUNNING).notifications =
      if sample_running.state = State.RUNNING then sample_running.notifications
      else sample_running.notifications ++ [State.RUNNING]) ∧
    (sample_running.state = State.RUNNING → set_state sample_running State.RUNNING = sample_running) ∧
    (is_fully_stopped sample_running = false ∧
      sample_running.state ≠ State.STOP_REQUESTED ∧
      (request_stop sample_running).notifications =
        sample_running.notifications ++ [State.STOP_REQUESTED]) ∧
    request_stop (request_stop sample_running) = request_stop sample_running :=
  ⟨(claim_C7_notify_once sample_running State.RUNNING).1,
    (claim_C7_notify_once sample_running State.RUNNING).2.1,
    ⟨by decide, by decide,
      (claim_C7_notify_once sample_running State.RUNNING).2.2.1 (by decide) (by decide)⟩,
    (claim_C7_notify_once sample_running State.RUNNING).2.2.2 (by decide)⟩

/-- C4: request_rerun always stores the new argv; when fully stopped it
spawns the script thread and changes nothing else; otherwise it moves
the state to RERUN_REQUESTED, clears the paused event, sets the
state-change event and spawns nothing, and a repeated call while
already RERUN_REQUESTED only overwrites argv; the startup prefix of the
spawned worker moves the state to RUNNING. -/
theorem claim_C4_request_rerun (s : ScriptRunner) (a a2 : List String) :
    ((request_rerun s a).1.argv = a) ∧
    (is_fully_stopped s = true → request_rerun s a = ({ s with argv := a }, true)) ∧
    (is_fully_stopped s = false →
      (request_rerun s a).2 = false ∧
      (request_rerun s a).1.state = State.RERUN_REQUESTED ∧
      (request_rerun s a).1.paused = false ∧
      (request_rerun s a).1.state_change_requested = true ∧
      request_rerun (request_rerun s a).1 a2 =
        ({ (request_rerun s a).1 with argv := a2 }, false)) ∧
    (∀ t, (worker_startup t).state = State.RUNNING) := by
  refine ⟨?_, request_rerun_of_stopped s a, ?_, ?_⟩
  · by_cases h : is_fully_stopped s = true
    · rw [request_rerun_of_stopped s a h]
    · rw [request_rerun_of_active s a (by simpa using h)]
      simp [set_state_argv]
  · intro h
    have hval := request_rerun_of_active s a h
    have h1 : (request_rerun s a).1.state = State.RERUN_REQUESTED := by
      rw [hval]
      simp [set_state_state]
    have h3 : (request_rerun s a).1.paused = false := by rw [hval]
    have h4 : (request_rerun s a).1.state_change_requested = true := by rw [hval]
    refine ⟨by rw [hval], h1, h3, h4, ?_⟩
    have h1b : ({ (request_rerun s a).1 with argv := a2 } : ScriptRunner).state =
        State.RERUN_REQUESTED := h1
    have h2 : is_fully_stopped ({ (request_rerun s a).1 with argv := a2 } : ScriptRunner) =
        false := by
      unfold is_fully_stopped
      rw [h1b]
      rfl
    have h3b : ({ (request_rerun s a).1 with argv := a2 } : ScriptRunner).paused = false := h3
    have h4b : ({ (request_rerun s a).1 with argv := a2 } : ScriptRunner).state_change_requested =
        true := h4
    calc request_rerun (request_rerun s a).1 a2
        = ({ { set_state ({ (request_rerun s a).1 with argv := a2 })
                State.RERUN_REQUESTED with paused := false }
              with state_change_requested := true }, false) := by
          have hact : is_fully_stopped (request_rerun s a).1 = false := by
            unfold is_fully_stopped
            rw [h1]
            rfl
          exact request_rerun_of_active _ a2 hact
      _ = ({ (request_rerun s a).1 with argv := a2 }, false) := by
          rw [set_state_self _ _ h1b]
          exact congrArg (fun x => (x, false)) (runner_clear_set_eta _ h3b h4b)
  · intro t
    unfold worker_startup
    exact set_state_state _ _

/-- Witness for C4, at a stopped runner (spawn) and a running one. -/
theorem claim_C4_request_rerun_witness :
    ((request_rerun sample_running ["x"]).1.argv = ["x"]) ∧
    (is_fully_stopped sample_stopped = true ∧
      request_rerun sample_stopped ["x"] = ({ sample_stopped with argv := ["x"] }, true)) ∧
    (is_fully_stopped sample_running = false ∧
      (request_rerun sample_running ["x"]).2 = false ∧
      (request_rerun sample_running ["x"]).1.state = State.RERUN_REQUESTED ∧
      (request_rerun sample_running ["x"]).1.paused = false ∧
      (request_rerun sample_running ["x"]).1.state_change_requested = true ∧
      request_rerun (request_rerun sample_running ["x"]).1 ["y"] =
        ({ (request_rerun sample_running ["x"]).1 with argv := ["y"] }, false)) :=
  ⟨(claim_C4_request_rerun sample_running ["x"] ["y"]).1,
    ⟨by decide, (claim_C4_request_rerun sample_stopped ["x"] ["y"]).2.1 (by decide)⟩,
    ⟨by decide, (claim_C4_request_rerun sample_running ["x"] ["y"]).2.2.1 (by decide)⟩⟩

/-- C6: the pause and resume round trip. A toggle issued while RUNNING
moves the state to PAUSE_REQUESTED, sets the state-change event, and
emits the one notification; at the next checkpoint the worker sets the
paused event, moves to PAUSED and blocks (an empty environment leaves
it blocked); a second toggle issued while PAUSED moves the state back
to RUNNING and clears the paused event without raising any signal, so
the checkpoint returns normally and the worker resumes where it
blocked; a toggle issued while fully stopped is a no-op. -/
theorem claim_C6_pause_resume (s : ScriptRunner) :
    (s.state = State.RUNNING →
      (request_pause_unpause s).state = State.PAUSE_REQUESTED ∧
      (request_pause_unpause s).state_change_requested = true ∧
      (request_pause_unpause s).notifications =
        s.notifications ++ [State.PAUSE_REQUESTED]) ∧
    (s.state = State.PAUSE_REQUESTED → s.state_change_requested = true →
      maybe_handle_execution_control_request [] s = ControlResult.blocked (pause_enter s) ∧
      (pause_enter s).state = State.PAUSED ∧
      (pause_enter s).paused = true ∧
      maybe_handle_execution_control_request [request_pause_unpause] s =
        ControlResult.returned
          ({ set_state (pause_enter s) State.RUNNING with paused := false }) ∧
      ({ set_state (pause_enter s) State.RUNNING with paused := false } : ScriptRunner).state =
        State.RUNNING ∧
      ({ set_state (pause_enter s) State.RUNNING with paused := false } : ScriptRunner).paused =
        false ∧
      ({ set_state (pause_enter s) State.RUNNING with paused := false }
          : ScriptRunner).state_change_requested = s.state_change_requested) ∧
    (s.state = State.PAUSED →
      (request_pause_unpause s).state = State.RUNNING ∧
      (request_pause_unpause s).paused = false ∧
      (request_pause_unpause s).state_change_requested = s.state_change_requested) ∧
    (is_fully_stopped s = true → request_pause_unpause s = s) := by
  refine ⟨?_, ?_, ?_, ?_⟩
  · intro h
    have hact : is_fully_stopped s = false := by
      unfold is_fully_stopped
      rw [h]
      rfl
    have hval : request_pause_unpause s =
        { set_state s State.PAUSE_REQUESTED with state_change_requested := true } := by
      simp only [request_pause_unpause]
      rw [if_neg (by simp [h])]
      exact request_pause_of_active s hact
    rw [hval]
    refine ⟨by simp [set_state_state], rfl, ?_⟩
    simp [set_state_notifications, h]
  · intro h hf
    have hpe : (pause_enter s).paused = true := pause_enter_paused s
    have htoggle : request_pause_unpause (pause_enter s) =
        { set_state (pause_enter s) State.RUNNING with paused := false } := by
      simp only [request_pause_unpause]
      rw [if_pos (pause_enter_state s)]
    have hloop0 : pause_wait_loop [] (pause_enter s) = (pause_enter s, false) := by
      simp only [pause_wait_loop]
      rw [if_neg (by simp [hpe])]
    have hloop1 : pause_wait_loop [request_pause_unpause] (pause_enter s) =
        ({ set_state (pause_enter s) State.RUNNING with paused := false }, true) := by
      simp only [pause_wait_loop]
      rw [if_neg (by simp [hpe]), htoggle, if_pos rfl]
    refine ⟨?_, pause_enter_state s, hpe, ?_, ?_, rfl, ?_⟩
    · have := maybe_handle_pause_loop [] s hf h (pause_enter s) false hloop0
      simpa using this
    · have := maybe_handle_pause_loop [request_pause_unpause] s hf h
        ({ set_state (pause_enter s) State.RUNNING with paused := false }) true hloop1
      simpa using this
    · simp [set_state_state]
    · rw [show ({ set_state (pause_enter s) State.RUNNING with paused := false }
          : ScriptRunner).state_change_requested =
        (set_state (pause_enter s) State.RUNNING).state_change_requested from rfl,
        set_state_flag, pause_enter_flag]
  · intro h
    have hval : request_pause_unpause s =
        { set_state s State.RUNNING with paused := false } := by
      simp only [request_pause_unpause]
      rw [if_pos h]
    rw [hval]
    refine ⟨by simp [set_state_state], rfl, ?_⟩
    rw [show ({ set_state s State.RUNNING with paused := false }
        : ScriptRunner).state_change_requested =
      (set_state s State.RUNNING).state_change_requested from rfl, set_state_flag]
  · intro h
    have hne : ¬ (s.state = State.PAUSED) := by
      rcases (is_fully_stopped_iff s).mp h with h1 | h1 <;> simp [h1]
    simp only [request_pause_unpause]
    rw [if_neg hne]
    simp only [request_pause]
    rw [if_pos h]

/-- Witness for C6, at concrete runners in each of the four situations. -/
theorem claim_C6_pause_resume_witness :
    (sample_running.state = State.RUNNING ∧
      (request_pause_unpause sample_running).state = State.PAUSE_REQUESTED ∧
      (request_pause_unpause sample_running).state_change_requested = true ∧
      (request_pause_unpause sample_running).notifications =
        sample_running.notifications ++ [State.PAUSE_REQUESTED]) ∧
    (sample_pause_requested.state_change_requested = true ∧
      maybe_handle_execution_control_request [] sample_pause_requested =
        ControlResult.blocked (pause_enter sample_pause_requested) ∧
      maybe_handle_execution_control_request [request_pause_unpause] sample_pause_requested =
        ControlResult.returned
          ({ set_state (pause_enter sample_pause_requested) State.RUNNING
              with paused := false })) ∧
    (sample_paused.state = State.PAUSED ∧
      (request_pause_unpause sample_paused).state = State.RUNNING ∧
      (request_pause_unpause sample_paused).paused = false) ∧
    (is_fully_stopped sample_stopped = true ∧ request_pause_unpause sample_stopped =
      sample_stopped) :=
  ⟨⟨rfl, (claim_C6_pause_resume sample_running).1 rfl⟩,
    ⟨rfl, ((claim_C6_pause_resume sample_pause_requested).2.1 rfl rfl).1,
      ((claim_C6_pause_resume sample_pause_requested).2.1 rfl rfl).2.2.2.1⟩,
    ⟨rfl, ((claim_C6_pause_resume sample_paused).2.2.1 rfl).1,
      ((claim_C6_pause_resume sample_paused).2.2.1 rfl).2.1⟩,
    ⟨rfl, (claim_C6_pause_resume sample_stopped).2.2.2 rfl⟩⟩

/-- Amended C1: when the state-change event is set, the checkpoint acts
on the current state without clearing the event (the event is cleared
only by the startup prefix of the next worker run): STOP_REQUESTED
raises StopException, RERUN_REQUESTED raises RerunException, and
PAUSE_REQUESTED sets the paused event, moves the state to PAUSED and
blocks, polling the paused event once per environment step, returning
normally without raising once the paused event is cleared; the raise
happens with the event still set, and the pause path keeps it set while
entering the wait. -/
theorem claim_C1_checkpoint_amended (env : List (ScriptRunner → ScriptRunner))
    (s : ScriptRunner) (hreq : s.state_change_requested = true) :
    (s.state = State.STOP_REQUESTED →
      maybe_handle_execution_control_request env s = ControlResult.raised_stop s) ∧
    (s.state = State.RERUN_REQUESTED →
      maybe_handle_execution_control_request env s = ControlResult.raised_rerun s) ∧
    (s.state = State.PAUSE_REQUESTED →
      (pause_enter s).state = State.PAUSED ∧
      (pause_enter s).paused = true ∧
      (pause_enter s).state_change_requested = true ∧
      (∀ s2, pause_wait_loop env (pause_enter s) = (s2, true) →
        s2.paused = false ∧
        maybe_handle_execution_control_request env s = ControlResult.returned s2) ∧
      (∀ s2, pause_wait_loop env (pause_enter s) = (s2, false) →
        maybe_handle_execution_control_request env s = ControlResult.blocked s2)) ∧
    (∀ t, (worker_startup t).state_change_requested = false) := by
  refine ⟨?_, ?_, ?_, ?_⟩
  · intro h
    simp only [maybe_handle_execution_control_request]
    rw [if_pos hreq, if_pos h]
  · intro h
    simp only [maybe_handle_execution_control_request]
    rw [if_pos hreq, if_neg (by simp [h]), if_pos h]
  · intro h
    refine ⟨pause_enter_state s, pause_enter_paused s, ?_, ?_, ?_⟩
    · rw [pause_enter_flag]
      exact hreq
    · intro s2 hl
      refine ⟨pause_wait_loop_unblocked env _ s2 hl, ?_⟩
      have := maybe_handle_pause_loop env s hreq h s2 true hl
      simpa using this
    · intro s2 hl
      have := maybe_handle_pause_loop env s hreq h s2 false hl
      simpa using this
  · intro t
    unfold worker_startup
    rw [set_state_flag]

/-- Witness for C1 as amended, at a concrete stop request and a
concrete pause request resumed by the environment. -/
theorem claim_C1_checkpoint_amended_witness :
    (sample_stop_requested.state_change_requested = true ∧
      maybe_handle_execution_control_request [] sample_stop_requested =
        ControlResult.raised_stop sample_stop_requested) ∧
    (sample_pause_requested.state_change_requested = true ∧
      (pause_enter sample_pause_requested).state_change_requested = true) :=
  ⟨⟨rfl, (claim_C1_checkpoint_amended [] sample_stop_requested rfl).1 rfl⟩,
    ⟨rfl, ((claim_C1_checkpoint_amended [] sample_pause_requested rfl).2.2.1 rfl).2.2.1⟩⟩

/-- Counterexample to C1 as stated: at a concrete pause request whose
environment resumes it, the checkpoint returns with the state-change
event still set, so the checkpoint does not clear the event. -/
theorem claim_C1_checkpoint_counterexample :
    maybe_handle_execution_control_request [request_pause_unpause] sample_pause_requested =
      ControlResult.returned
        { state := State.RUNNING, paused := false, state_change_requested := true,
          script_path := "script.py", argv := ["script.py"],
          notifications := [State.PAUSED, State.RUNNING] } ∧
    ({ state := State.RUNNING, paused := false, state_change_requested := true,
        script_path := "script.py", argv := ["script.py"],
        notifications := [State.PAUSED, State.RUNNING] } : ScriptRunner).state_change_requested
      ≠ false := by
  exact ⟨by decide, by decide⟩

/-- C2: a worker is spawned by request_rerun exactly when the runner is
fully stopped (state INITIAL or STOPPED), and a run started while the
runner is not fully stopped raises the already-running RuntimeError
without touching anything, so at most one worker is active at a time. -/
theorem claim_C2_single_worker (s : ScriptRunner) (a : List String)
    (p : ScriptPass) (rest : List ScriptPass) (log : WorkerLog) :
    ((request_rerun s a).2 = is_fully_stopped s) ∧
    (is_fully_stopped log.runner = false →
      run_passes (p :: rest) log = some (RunResult.already_running log)) := by
  constructor
  · by_cases h : is_fully_stopped s = true
    · rw [request_rerun_of_stopped s a h, h]
    · have h2 : is_fully_stopped s = false := by simpa using h
      rw [request_rerun_of_active s a h2, h2]
  · intro h
    simp only [run_passes]
    rw [if_pos h]

/-- Witness for C2, at a concrete runner that is already RUNNING. -/
theorem claim_C2_single_worker_witness :
    is_fully_stopped sample_log_running.runner = false ∧
    run_passes [sample_completed_pass] sample_log_running =
      some (RunResult.already_running sample_log_running) :=
  ⟨by decide,
    (claim_C2_single_worker sample_running [] sample_completed_pass [] sample_log_running).2
      (by decide)⟩

theorem run_passes_finished_state (ps : List ScriptPass) :
    ∀ log log2, run_passes ps log = some (RunResult.finished log2) →
      log2.runner.state = State.STOPPED := by
  induction ps with
  | nil =>
    intro log log2 h
    simp [run_passes] at h
  | cons p rest ih =>
    intro log log2 h
    simp only [run_passes] at h
    split at h
    · simp at h
    · cases hout : p.outcome
      case compile_error msg =>
        simp only [hout, Option.some.injEq, RunResult.finished.injEq] at h
        rw [← h]
        exact set_state_state _ _
      case completed =>
        simp only [hout, Option.some.injEq, RunResult.finished.injEq] at h
        rw [← h]
        exact set_state_state _ _
      case stop_exc =>
        simp only [hout, Option.some.injEq, RunResult.finished.injEq] at h
        rw [← h]
        exact set_state_state _ _
      case rerun_exc =>
        simp only [hout] at h
        exact ih _ log2 h
      case script_error msg =>
        simp only [hout, Option.some.injEq, RunResult.finished.injEq] at h
        rw [← h]
        exact set_state_state _ _

/-- C3: top level of the worker. Every finished run ends with state
STOPPED; a pass ending in StopException finishes with the sink
untouched (the signal is never surfaced); a pass ending in
RerunException continues as a tail call of the whole worker procedure
on the remaining passes, with the state set to STOPPED at the restart
boundary; any other failure of the pass, a raised BaseException from
exec or a compile failure of the source, appends its rendered report to
the sink and finishes; the supervisor never propagates any of these. -/
theorem claim_C3_worker_top (ps : List ScriptPass) (p : ScriptPass) (rest : List ScriptPass)
    (log log2 : WorkerLog) (msg : String) :
    (run_passes ps log = some (RunResult.finished log2) →
      log2.runner.state = State.STOPPED) ∧
    (is_fully_stopped log.runner = true → p.outcome = ExecOutcome.stop_exc →
      run_passes (p :: rest) log =
        some (RunResult.finished
          { runner := set_state (p.eff (worker_startup log.runner)) State.STOPPED,
            sink := log.sink,
            ns_log := log.ns_log ++
              [fresh_namespace (worker_startup log.runner).script_path] })) ∧
    (is_fully_stopped log.runner = true → p.outcome = ExecOutcome.rerun_exc →
      run_passes (p :: rest) log =
        run_passes rest
          { runner := set_state (p.eff (worker_startup log.runner)) State.STOPPED,
            sink := log.sink,
            ns_log := log.ns_log ++
              [fresh_namespace (worker_startup log.runner).script_path] } ∧
      (set_state (p.eff (worker_startup log.runner)) State.STOPPED).state = State.STOPPED) ∧
    (is_fully_stopped log.runner = true → p.outcome = ExecOutcome.script_error msg →
      run_passes (p :: rest) log =
        some (RunResult.finished
          { runner := set_state (p.eff (worker_startup log.runner)) State.STOPPED,
            sink := log.sink ++ [msg],
            ns_log := log.ns_log ++
              [fresh_namespace (worker_startup log.runner).script_path] })) ∧
    (is_fully_stopped log.runner = true → p.outcome = ExecOutcome.compile_error msg →
      run_passes (p :: rest) log =
        some (RunResult.finished
          { runner := set_state (p.eff (worker_startup log.runner)) State.STOPPED,
            sink := log.sink ++ [msg],
            ns_log := log.ns_log })) := by
  refine ⟨run_passes_finished_state ps log log2, ?_, ?_, ?_, ?_⟩
  · intro h1 h2
    simp only [run_passes]
    rw [if_neg (by simp [h1])]
    simp [h2]
  · intro h1 h2
    refine ⟨?_, set_state_state _ _⟩
    simp only [run_passes]
    rw [if_neg (by simp [h1])]
    simp [h2]
  · intro h1 h2
    simp only [run_passes]
    rw [if_neg (by simp [h1])]
    simp [h2]
  · intro h1 h2
    simp only [run_passes]
    rw [if_neg (by simp [h1])]
    simp [h2]

/-- Witness for C3, at a concrete stopped runner and a pass raising
StopException. -/
theorem claim_C3_worker_top_witness :
    is_fully_stopped sample_log0.runner = true ∧
    sample_stop_pass.outcome = ExecOutcome.stop_exc ∧
    run_passes [sample_stop_pass] sample_log0 =
      some (RunResult.finished
        { runner := set_state (sample_stop_pass.eff (worker_startup sample_log0.runner))
            State.STOPPED,
          sink := sample_log0.sink,
          ns_log := sample_log0.ns_log ++
            [fresh_namespace (worker_startup sample_log0.runner).script_path] }) :=
  ⟨by decide, rfl,
    (claim_C3_worker_top [] sample_stop_pass [] sample_log0 sample_log0 "").2.1
      (by decide) rfl⟩

/-- Amended C8: each pass of the worker hands exec a namespace dict
built fresh for that pass, holding exactly the two interpreter-standard
module bindings __name__ set to __main__ and __file__ set to the script
path, with no user identifiers and nothing from the supervisor scope;
the dict the script mutated is discarded at the end of the pass, so no
identifiers leak between runs: whatever the scripts of earlier passes
did to their namespaces, every logged exec namespace equals the fresh
one. -/
theorem claim_C8_fresh_namespace (ps : List ScriptPass) :
    ∀ log log2,
      (∀ p ∈ ps, ∀ t, (p.eff t).script_path = t.script_path) →
      run_passes ps log = some (RunResult.finished log2) →
      (∀ ns ∈ log2.ns_log,
        ns ∈ log.ns_log ∨ ns = fresh_namespace log.runner.script_path) ∧
      fresh_namespace log.runner.script_path =
        [("__name__", "__main__"), ("__file__", log.runner.script_path)] := by
  induction ps with
  | nil =>
    intro log log2 hp h
    simp [run_passes] at h
  | cons p rest ih =>
    intro log log2 hp h
    have hp_head : ∀ t, (p.eff t).script_path = t.script_path :=
      hp p (List.mem_cons_self p rest)
    have hp_tail : ∀ q ∈ rest, ∀ t, (q.eff t).script_path = t.script_path :=
      fun q hq t => hp q (List.mem_cons_of_mem p hq) t
    refine ⟨?_, rfl⟩
    simp only [run_passes] at h
    split at h
    · simp at h
    · cases hout : p.outcome
      case compile_error msg =>
        simp only [hout, Option.some.injEq, RunResult.finished.injEq] at h
        rw [← h]
        intro ns hns
        exact Or.inl hns
      case completed =>
        simp only [hout, Option.some.injEq, RunResult.finished.injEq] at h
        rw [← h]
        intro ns hns
        rw [worker_startup_path] at hns
        rcases List.mem_append.mp hns with h1 | h1
        · exact Or.inl h1
        · right
          simpa using h1
      case stop_exc =>
        simp only [hout, Option.some.injEq, RunResult.finished.injEq] at h
        rw [← h]
        intro ns hns
        rw [worker_startup_path] at hns
        rcases List.mem_append.mp hns with h1 | h1
        · exact Or.inl h1
        · right
          simpa using h1
      case script_error msg =>
        simp only [hout, Option.some.injEq, RunResult.finished.injEq] at h
        rw [← h]
        intro ns hns
        rw [worker_startup_path] at hns
        rcases List.mem_append.mp hns with h1 | h1
        · exact Or.inl h1
        · right
          simpa using h1
      case rerun_exc =>
        simp only [hout] at h
        obtain ⟨hmem, -⟩ := ih _ log2 hp_tail h
        have hpath : (set_state (p.eff (worker_startup log.runner)) State.STOPPED).script_path =
            log.runner.script_path := by
          rw [set_state_path, hp_head, worker_startup_path]
        intro ns hns
        rcases hmem ns hns with h1 | h1
        · rcases List.mem_append.mp h1 with h2 | h2
          · exact Or.inl h2
          · right
            rw [worker_startup_path] at h2
            simpa using h2
        · right
          rw [h1]
          simp only [set_state_path, hp_head, worker_startup_path]

/-- Witness for C8 as amended, at one concrete completed pass. -/
theorem claim_C8_fresh_namespace_witness :
    (∀ ns ∈ sample_finished_log.ns_log,
      ns ∈ sample_log0.ns_log ∨ ns = fresh_namespace sample_log0.runner.script_path) ∧
    fresh_namespace sample_log0.runner.script_path =
      [("__name__", "__main__"), ("__file__", sample_log0.runner.script_path)] :=
  claim_C8_fresh_namespace [sample_completed_pass] sample_log0 sample_finished_log
    (by
      intro q hq t
      simp only [List.mem_singleton] at hq
      rw [hq]
      rfl)
    (by decide)

/-- Counterexample to C8 as stated: at a concrete completed run the
namespace handed to exec is the two-entry dict with __name__ and
__file__, not an empty one. -/
theorem claim_C8_counterexample :
    run_passes [sample_completed_pass] sample_log0 =
      some (RunResult.finished sample_finished_log) ∧
    sample_finished_log.ns_log =
      [[("__name__", "__main__"), ("__file__", "script.py")]] ∧
    ([("__name__", "__main__"), ("__file__", "script.py")] : List (String × String)) ≠ [] := by
  exact ⟨by decide, by decide, by decide⟩

/-- Amended C9: _insert_import_statement places the streamlit import at
index 1 when the 0th node is an import statement (between the first
such statement and whatever follows), at index 2 when the 0th node is a
docstring and the 1st an import statement, and otherwise at index 0,
the very top, even above a lone leading docstring; in particular for
the body of the input with a docstring followed by the os import, the
inserted binding lands after both. -/
theorem claim_C9_insert_import (body : List PyNode) :
    _insert_import_statement body =
      insert_at (st_import_index body) _build_st_import_statement body ∧
    _insert_import_statement [PyNode.expr_str_node "doc", PyNode.import_node "os" none] =
      [PyNode.expr_str_node "doc", PyNode.import_node "os" none,
        _build_st_import_statement] := by
  constructor
  · cases body with
    | nil => rfl
    | cons b0 rest =>
      cases rest with
      | nil =>
        by_cases h : is_import_type b0 = true
        · simp [_insert_import_statement, st_import_index, insert_at, h]
        · have h2 : is_import_type b0 = false := by simpa using h
          simp [_insert_import_statement, st_import_index, insert_at, h2]
      | cons b1 rest2 =>
        by_cases h : is_import_type b0 = true
        · simp [_insert_import_statement, st_import_index, insert_at, h]
        · have h2 : is_import_type b0 = false := by simpa using h
          by_cases h3 : (is_str_expr b0 && is_import_type b1) = true
          · simp [_insert_import_statement, st_import_index, insert_at, h2, h3]
          · have h4 : (is_str_expr b0 && is_import_type b1) = false := by simpa using h3
            simp [_insert_import_statement, st_import_index, insert_at, h2, h4]
  · decide

/-- Counterexample to C9 as stated: for a body holding a lone docstring
the import is inserted at the very top, above the docstring, not after
it. -/
theorem claim_C9_insert_import_counterexample :
    _insert_import_statement [PyNode.expr_str_node "doc"] =
      [_build_st_import_statement, PyNode.expr_str_node "doc"] ∧
    _insert_import_statement [PyNode.expr_str_node "doc"] ≠
      [PyNode.expr_str_node "doc", _build_st_import_statement] := by
  exact ⟨by decide, by decide⟩

end Streamlit
